import Mathlib

/-!
Shallow embedding of `octopus_sensing/devices/brainflow_streaming.py`:
the `BrainFlowStreaming` session controller (control loop `_run`, the
acquisition worker `_stream_loop`, the writer `_save_to_file`, the
monitoring query `_get_monitoring_data`), together with theorems settling
the behavioural claims about it.
-/

namespace OctopusSensing

/-- One cell of a CSV row: a numeric channel sample (board data), or a
string field (a header column name or a trigger tag appended to a record). -/
inductive Entry where
  | num (v : Int)
  | str (s : String)
  deriving DecidableEq

/-- A Record is one row: the per-sample list of channel values, possibly
extended with a trailing trigger-tag field. -/
abbrev Record := List Entry

/-- Modelled from the spec: `SavingModeEnum` lives in
`octopus_sensing.devices.common`, which is not under `src/`; the spec
describes the Saving Mode as the enumeration \x7bCONTINUOUS, SEPARATED\x7d,
and the source refers to the two members by these names. -/
inductive SavingModeEnum where
  | CONTINIOUS_SAVING_MODE
  | SEPARATED_SAVING_MODE
  deriving DecidableEq

/-- Modelled from the spec: `MessageType` lives in
`octopus_sensing.common.message_creators`, which is not under `src/`; the
spec gives the message kinds START, STOP, TERMINATE plus unknown kinds,
and its trigger-tag example `START-1-03` shows a kind formats as its name. -/
inductive MessageType where
  | START
  | STOP
  | TERMINATE
  | OTHER (s : String)
  deriving DecidableEq

/-- How a message kind renders inside a formatted string (trigger tags). -/
def MessageType.kindString : MessageType → String
  | .START => "START"
  | .STOP => "STOP"
  | .TERMINATE => "TERMINATE"
  | .OTHER s => s

/-- A control message: kind, experiment id, stimulus id (spec section 6:
both ids are strings on the wire). -/
structure Message where
  type : MessageType
  experiment_id : String
  stimulus_id : String
  deriving DecidableEq

/-- The per-device configuration fixed at construction: device name,
output directory (already joined with the device name, as `__init__` does),
sampling rate, saving mode, and the optional CSV header
(`self.header`, inherited from `MonitoredDevice`, modelled from the spec
as an optional ordered list of column names). -/
structure Config where
  name : String
  output_path : String
  sampling_rate : Nat
  saving_mode : SavingModeEnum
  header : Option (List String)

/-- The file system visible to the writer: each path is either absent or
holds a list of CSV rows. -/
abbrev FS := String → Option (List Record)

/-- The empty file system. -/
def emptyFS : FS := fun _ => none

/-- `os.path.exists` on the modelled file system. -/
def os_path_exists (fs : FS) (p : String) : Bool := (fs p).isSome

/-- Opening a path in append mode and writing `rows`: creates the file when
absent, otherwise appends after the existing rows. -/
def FS.appendRows (fs : FS) (p : String) (rows : List Record) : FS :=
  fun q => if q = p then some ((fs p).getD [] ++ rows) else fs q

/-- A file system equal to `fs` everywhere except that path `p` now holds
exactly the rows `c`. -/
def FS.writeOnly (fs : FS) (p : String) (c : List Record) : FS :=
  fun q => if q = p then some c else fs q

/-- `BrainFlowStreaming._save_to_file`: if the target does not exist it is
created (mode `a`) and the header row is written when a header is
configured; then every buffered record is appended as one row, in buffer
order. The buffer itself is only read, never written. -/
def _save_to_file (header : Option (List String)) (stream_data : List Record)
    (file_name : String) (fs : FS) : FS :=
  let fs1 :=
    if os_path_exists fs file_name then fs
    else
      match header with
      | some h => FS.appendRows fs file_name [h.map Entry.str]
      | none => FS.appendRows fs file_name []
  FS.appendRows fs1 file_name stream_data

/-- Python `str.zfill`: left-pad with zeros up to `width`, keeping a
leading sign character in front of the padding. -/
def zfill (s : String) (width : Nat) : String :=
  if width ≤ s.length then s
  else
    let pad := List.replicate (width - s.length) '0'
    match s.data with
    | '+' :: rest => String.mk ('+' :: (pad ++ rest))
    | '-' :: rest => String.mk ('-' :: (pad ++ rest))
    | _ => String.mk pad ++ s

/-- Python formatting of `self._experiment_id`, which is `None` until the
first START/STOP message is processed. -/
def pyFormatOpt : Option String → String
  | none => "None"
  | some s => s

/-- The mutable state of one `BrainFlowStreaming` session: the stream
buffer, current experiment id, the single-slot trigger register, the
termination flag, and the file system the writer acts on. -/
structure ControlState where
  stream_data : List Record
  experiment_id : Option String
  trigger : Option String
  terminate : Bool
  fs : FS

/-- `BrainFlowStreaming.__set_trigger`: store the tag
`\x7bkind\x7d-\x7bexperiment_id\x7d-\x7bstimulus_id zero-filled to 2\x7d` in the trigger register. -/
def set_trigger (m : Message) (s : ControlState) : ControlState :=
  { s with
      trigger := some (m.type.kindString ++ "-" ++ m.experiment_id ++ "-" ++
        zfill m.stimulus_id 2) }

/-- Output file name used on a SEPARATED-mode STOP:
`\x7boutput_path\x7d/\x7bname\x7d-\x7bexperiment_id\x7d-\x7bstimulus_id\x7d.csv`. -/
def separatedFileName (cfg : Config) (experiment_id : String) (stimulus_id : String) : String :=
  cfg.output_path ++ "/" ++ cfg.name ++ "-" ++ experiment_id ++ "-" ++ stimulus_id ++ ".csv"

/-- Output file name used on a CONTINUOUS-mode TERMINATE:
`\x7boutput_path\x7d/\x7bname\x7d-\x7bexperiment_id\x7d.csv` (experiment id formatted the
Python way, so `None` before any START/STOP). -/
def continuousFileName (cfg : Config) (experiment_id : Option String) : String :=
  cfg.output_path ++ "/" ++ cfg.name ++ "-" ++ pyFormatOpt experiment_id ++ ".csv"

/-- One iteration of the message loop in `BrainFlowStreaming._run`, acting
on one received message (possibly `None`). Returns the updated state and
whether the loop breaks (`True` exactly after a TERMINATE message). -/
def process_message (cfg : Config) (s : ControlState) (msg : Option Message) :
    ControlState × Bool :=
  match msg with
  | none => (s, false)
  | some m =>
    match m.type with
    | MessageType.START =>
        let s1 := set_trigger m s
        ({ s1 with experiment_id := some m.experiment_id }, false)
    | MessageType.STOP =>
        if cfg.saving_mode = SavingModeEnum.SEPARATED_SAVING_MODE then
          let s1 := { s with experiment_id := some m.experiment_id }
          let file_name := separatedFileName cfg m.experiment_id m.stimulus_id
          let fs1 := _save_to_file cfg.header s1.stream_data file_name s1.fs
          ({ s1 with fs := fs1, stream_data := [] }, false)
        else
          let s1 := { s with experiment_id := some m.experiment_id }
          (set_trigger m s1, false)
    | MessageType.TERMINATE =>
        let s1 := { s with terminate := true }
        if cfg.saving_mode = SavingModeEnum.CONTINIOUS_SAVING_MODE then
          let file_name := continuousFileName cfg s1.experiment_id
          ({ s1 with fs := _save_to_file cfg.header s1.stream_data file_name s1.fs }, true)
        else
          (s1, true)
    | MessageType.OTHER _ => (s, false)

/-- The body of one `BrainFlowStreaming._stream_loop` iteration after the
termination check, acting on the block pulled from the board, given as the
list of per-sample rows (the transpose of the channels-by-samples array;
zero samples pulled means the empty list). If the block is empty nothing
happens; otherwise the rows are appended to the stream buffer in arrival
order, and if a trigger is pending the last-appended record is popped, the
tag is appended to it as an extra field, it is re-appended, and the
trigger register is cleared. -/
def stream_step (s : ControlState) (block : List (List Int)) : ControlState :=
  if block.length = 0 then s
  else
    let s1 := { s with
      stream_data := s.stream_data ++ block.map (fun row => List.map Entry.num row) }
    let s2 :=
      match s1.trigger with
      | none => s1
      | some trig =>
          let last_record := s1.stream_data.getLast?.getD []
          { s1 with stream_data :=
              s1.stream_data.dropLast ++ [last_record ++ [Entry.str trig]] }
    { s2 with trigger := none }

/-- An observable event of a session: the control loop receiving one
message from its queue, or the worker performing one pull of board data. -/
inductive Event where
  | msg (m : Option Message)
  | pull (block : List (List Int))

/-- Whether an event is the control loop receiving a TERMINATE message. -/
def isTerminateEvent : Event → Bool
  | Event.msg (some m) =>
      match m.type with
      | MessageType.TERMINATE => true
      | _ => false
  | _ => false

/-- Whole-session state: the shared control state, whether the control
loop has exited its `while` (after which it consumes no more messages and
has called `stop_stream`), and whether the board stream is running. -/
structure SessionState where
  ctrl : ControlState
  stopped : Bool
  board_streaming : Bool

/-- One step of the interleaved session: a message event runs one control
loop iteration unless the loop has exited (on break, `_board.stop_stream()`
is called); a pull event runs one worker iteration, which first checks the
termination flag and does nothing once it is set. -/
def session_step (cfg : Config) (ss : SessionState) (e : Event) : SessionState :=
  match e with
  | Event.msg m =>
      if ss.stopped then ss
      else
        let r := process_message cfg ss.ctrl m
        if r.2 then { ctrl := r.1, stopped := true, board_streaming := false }
        else { ss with ctrl := r.1 }
  | Event.pull block =>
      if ss.ctrl.terminate then ss
      else { ss with ctrl := stream_step ss.ctrl block }

/-- Run a session over a list of events, in order. -/
def run_session (cfg : Config) : SessionState → List Event → SessionState
  | ss, [] => ss
  | ss, e :: es => run_session cfg (session_step cfg ss e) es

/-- Python list slicing `l[i:]` for an integer index `i` (negative index
counts from the end, `l[0:]` is the whole list). -/
def pySliceFrom {α : Type} (l : List α) (i : Int) : List α :=
  if i < 0 then l.drop (l.length - (-i).toNat)
  else l.drop i.toNat

/-- `BrainFlowStreaming._get_monitoring_data`: the slice
`self.stream_data[-1 * 3 * self.sampling_rate:]`. -/
def _get_monitoring_data (cfg : Config) (s : ControlState) : List Record :=
  pySliceFrom s.stream_data (-1 * 3 * (cfg.sampling_rate : Int))

/-- The rows a flush target holds before the buffered records are appended:
the pre-existing rows when the file exists, otherwise the freshly written
header row (or nothing when no header is configured). -/
def fileBase (old : Option (List Record)) (header : Option (List String)) : List Record :=
  match old with
  | some c => c
  | none =>
      match header with
      | some h => [h.map Entry.str]
      | none => []

/-! Helper lemmas shared by the claim theorems. -/

/-- What `_save_to_file` does, pointwise: the target path ends up holding
its previous rows (or a fresh header row) followed by the buffered
records, and every other path is untouched. -/
theorem save_to_file_eq (header : Option (List String)) (data : List Record)
    (p : String) (fs : FS) :
    _save_to_file header data p fs = FS.writeOnly fs p (fileBase (fs p) header ++ data) := by
  funext q
  by_cases hq : q = p
  · subst hq
    cases hfs : fs q with
    | none =>
        cases header with
        | none =>
            simp [_save_to_file, os_path_exists, FS.appendRows, FS.writeOnly, fileBase, hfs]
        | some h =>
            simp [_save_to_file, os_path_exists, FS.appendRows, FS.writeOnly, fileBase, hfs]
    | some c =>
        simp [_save_to_file, os_path_exists, FS.appendRows, FS.writeOnly, fileBase, hfs]
  · cases header <;> cases hfs : fs p <;>
      simp [_save_to_file, os_path_exists, FS.appendRows, FS.writeOnly, hq, hfs]

/-- String concatenation is associative. -/
theorem string_append_assoc (a b c : String) : a ++ b ++ c = a ++ (b ++ c) := by
  rcases a with ⟨la⟩
  rcases b with ⟨lb⟩
  rcases c with ⟨lc⟩
  show String.mk (la ++ lb ++ lc) = String.mk (la ++ (lb ++ lc))
  rw [List.append_assoc]

/-- Before any START/STOP message, the CONTINUOUS output file name renders
the experiment id as the Python `None`. -/
theorem continuousFileName_none (cfg : Config) :
    continuousFileName cfg none = cfg.output_path ++ "/" ++ cfg.name ++ "-None.csv" := by
  unfold continuousFileName pyFormatOpt
  rw [string_append_assoc (cfg.output_path ++ "/" ++ cfg.name) "-" "None",
    string_append_assoc (cfg.output_path ++ "/" ++ cfg.name) ("-" ++ "None") ".csv"]
  congr 1

/-- A list stays a prefix after appending more records and retagging the
final appended one. -/
theorem prefix_dropLast_append {α : Type} (l₁ l₂ : List α) (x : α) (h : l₂ ≠ []) :
    l₁ <+: ((l₁ ++ l₂).dropLast ++ [x]) := by
  rw [List.dropLast_append_of_ne_nil l₁ h, List.append_assoc]
  exact ⟨l₂.dropLast ++ [x], rfl⟩

/-- The worker step never touches the file system, the experiment id, or
the termination flag. -/
theorem stream_step_frame (s : ControlState) (block : List (List Int)) :
    (stream_step s block).fs = s.fs ∧
    (stream_step s block).experiment_id = s.experiment_id ∧
    (stream_step s block).terminate = s.terminate := by
  unfold stream_step
  by_cases hb : block.length = 0
  · simp [hb]
  · rw [if_neg hb]
    cases htr : s.trigger <;> simp [htr]

/-- The worker step only ever extends the stream buffer: the previous
buffer is a prefix of the new one. -/
theorem stream_step_grows (s : ControlState) (block : List (List Int)) :
    s.stream_data <+: (stream_step s block).stream_data := by
  unfold stream_step
  by_cases hb : block.length = 0
  · simp [hb]
  · have hmap : block.map (fun row => List.map Entry.num row) ≠ [] := by
      intro h
      exact hb (by simpa using congrArg List.length h)
    rw [if_neg hb]
    cases htr : s.trigger with
    | none => simp [htr]
    | some trig =>
        simp only [htr]
        exact prefix_dropLast_append _ _ _ hmap

/-- In CONTINUOUS mode the control loop never touches the stream buffer:
no message ever changes it. -/
theorem process_message_continuous_buffer (cfg : Config) (s : ControlState)
    (msg : Option Message)
    (hmode : cfg.saving_mode = SavingModeEnum.CONTINIOUS_SAVING_MODE) :
    (process_message cfg s msg).1.stream_data = s.stream_data := by
  cases msg with
  | none => rfl
  | some m =>
      cases htype : m.type <;> simp [process_message, htype, hmode, set_trigger]

/-- In CONTINUOUS mode, no message other than TERMINATE changes the file
system, and neither does any worker pull. -/
theorem session_step_fs_frame (cfg : Config) (ss : SessionState) (e : Event)
    (hmode : cfg.saving_mode = SavingModeEnum.CONTINIOUS_SAVING_MODE)
    (hnt : isTerminateEvent e = false) :
    (session_step cfg ss e).ctrl.fs = ss.ctrl.fs := by
  cases e with
  | pull block =>
      unfold session_step
      by_cases ht : ss.ctrl.terminate
      · simp [ht]
      · simp [ht, (stream_step_frame ss.ctrl block).1]
  | msg m =>
      cases m with
      | none =>
          unfold session_step
          by_cases hst : ss.stopped <;> simp [hst, process_message]
      | some mm =>
          unfold session_step
          by_cases hst : ss.stopped
          · simp [hst]
          · cases htype : mm.type <;>
              simp_all [isTerminateEvent, process_message, set_trigger]

/-- In CONTINUOUS mode every session step only extends the stream buffer. -/
theorem session_step_buffer_grows (cfg : Config) (ss : SessionState) (e : Event)
    (hmode : cfg.saving_mode = SavingModeEnum.CONTINIOUS_SAVING_MODE) :
    ss.ctrl.stream_data <+: (session_step cfg ss e).ctrl.stream_data := by
  cases e with
  | pull block =>
      unfold session_step
      by_cases ht : ss.ctrl.terminate
      · simp [ht]
      · simp only [ht, if_neg, Bool.false_eq_true, not_false_iff]
        exact stream_step_grows ss.ctrl block
  | msg m =>
      unfold session_step
      by_cases hst : ss.stopped
      · simp [hst]
      · have hbuf := process_message_continuous_buffer cfg ss.ctrl m hmode
        by_cases hbr : (process_message cfg ss.ctrl m).2 <;> simp [hst, hbr, hbuf]

/-! Concrete sample values used by the witness theorems. -/

/-- A SEPARATED-mode sample configuration. -/
def sampleConfigSep : Config :=
  { name := "device", output_path := "out", sampling_rate := 2,
    saving_mode := SavingModeEnum.SEPARATED_SAVING_MODE, header := some ["ch1", "ch2"] }

/-- A CONTINUOUS-mode sample configuration. -/
def sampleConfigCont : Config :=
  { name := "device", output_path := "out", sampling_rate := 2,
    saving_mode := SavingModeEnum.CONTINIOUS_SAVING_MODE, header := some ["ch1", "ch2"] }

/-- A sample control state holding one buffered record. -/
def sampleState : ControlState :=
  { stream_data := [[Entry.num 10, Entry.num 20]], experiment_id := none,
    trigger := none, terminate := false, fs := emptyFS }

/-- A sample running session state. -/
def sampleSession : SessionState :=
  { ctrl := sampleState, stopped := false, board_streaming := true }

/-- A sample STOP message. -/
def sampleStop : Message :=
  { type := MessageType.STOP, experiment_id := "1", stimulus_id := "3" }

/-- A sample START message. -/
def sampleStart : Message :=
  { type := MessageType.START, experiment_id := "1", stimulus_id := "3" }

/-- A sample TERMINATE message. -/
def sampleTerminate : Message :=
  { type := MessageType.TERMINATE, experiment_id := "1", stimulus_id := "3" }

/-! The claims. -/

/-- C1: in SEPARATED saving mode, processing a STOP message writes exactly
one output file, named
`\x7boutput_dir\x7d/\x7bdevice_name\x7d-\x7bexperiment_id\x7d-\x7bstimulus_id\x7d.csv`, whose rows
after the pre-existing contents (or the fresh header) are exactly the full
current stream buffer; the buffer is empty immediately afterwards, and the
loop keeps running. -/
theorem C1_separated_stop_flush (cfg : Config) (s : ControlState) (m : Message)
    (hmode : cfg.saving_mode = SavingModeEnum.SEPARATED_SAVING_MODE)
    (htype : m.type = MessageType.STOP) :
    (process_message cfg s (some m)).1.fs =
      FS.writeOnly s.fs (separatedFileName cfg m.experiment_id m.stimulus_id)
        (fileBase (s.fs (separatedFileName cfg m.experiment_id m.stimulus_id)) cfg.header
          ++ s.stream_data) ∧
    (process_message cfg s (some m)).1.stream_data = [] ∧
    (process_message cfg s (some m)).2 = false := by
  simp [process_message, htype, hmode, save_to_file_eq]

/-- Witness for C1 at a concrete SEPARATED configuration and STOP message. -/
theorem C1_separated_stop_flush_witness :
    sampleConfigSep.saving_mode = SavingModeEnum.SEPARATED_SAVING_MODE ∧
    sampleStop.type = MessageType.STOP ∧
    ((process_message sampleConfigSep sampleState (some sampleStop)).1.fs =
      FS.writeOnly sampleState.fs
        (separatedFileName sampleConfigSep sampleStop.experiment_id sampleStop.stimulus_id)
        (fileBase (sampleState.fs
            (separatedFileName sampleConfigSep sampleStop.experiment_id sampleStop.stimulus_id))
          sampleConfigSep.header ++ sampleState.stream_data) ∧
    (process_message sampleConfigSep sampleState (some sampleStop)).1.stream_data = [] ∧
    (process_message sampleConfigSep sampleState (some sampleStop)).2 = false) :=
  ⟨rfl, rfl, C1_separated_stop_flush sampleConfigSep sampleState sampleStop rfl rfl⟩

/-- C6: the Persistence Writer is not idempotent: invoking `_save_to_file`
twice with the same path and the same non-empty buffer appends rather than
overwrites, so the file ends with the buffered rows duplicated and its
contents differ from those after the first call. -/
theorem C6_writer_not_idempotent (header : Option (List String)) (data : List Record)
    (p : String) (fs : FS) (hne : data ≠ []) :
    _save_to_file header data p (_save_to_file header data p fs) p =
      some ((fileBase (fs p) header ++ data) ++ data) ∧
    _save_to_file header data p (_save_to_file header data p fs) p ≠
      _save_to_file header data p fs p := by
  have h1 : _save_to_file header data p fs p = some (fileBase (fs p) header ++ data) := by
    rw [save_to_file_eq]
    simp [FS.writeOnly]
  have h2 : _save_to_file header data p (_save_to_file header data p fs) p =
      some ((fileBase (fs p) header ++ data) ++ data) := by
    rw [save_to_file_eq]
    simp [FS.writeOnly, h1, fileBase]
  refine ⟨h2, ?_⟩
  rw [h1, h2]
  intro h
  have hlen := congrArg (fun o => (Option.getD o []).length) h
  simp [List.length_append] at hlen
  exact hne hlen

/-- Witness for C6 at a concrete header, one-record buffer, path and the
empty file system. -/
theorem C6_writer_not_idempotent_witness :
    ([[Entry.num 10, Entry.num 20]] : List Record) ≠ [] ∧
    (_save_to_file sampleConfigSep.header [[Entry.num 10, Entry.num 20]] "out/f.csv"
        (_save_to_file sampleConfigSep.header [[Entry.num 10, Entry.num 20]] "out/f.csv" emptyFS)
        "out/f.csv" =
      some ((fileBase (emptyFS "out/f.csv") sampleConfigSep.header ++
          [[Entry.num 10, Entry.num 20]]) ++ [[Entry.num 10, Entry.num 20]]) ∧
    _save_to_file sampleConfigSep.header [[Entry.num 10, Entry.num 20]] "out/f.csv"
        (_save_to_file sampleConfigSep.header [[Entry.num 10, Entry.num 20]] "out/f.csv" emptyFS)
        "out/f.csv" ≠
      _save_to_file sampleConfigSep.header [[Entry.num 10, Entry.num 20]] "out/f.csv" emptyFS
        "out/f.csv") :=
  ⟨by decide,
    C6_writer_not_idempotent sampleConfigSep.header [[Entry.num 10, Entry.num 20]]
      "out/f.csv" emptyFS (by decide)⟩

/-- C7: the header row is written exactly once per output file: flushing to
an absent file with a configured header puts the header as the first row
before the data rows; flushing to an existing file writes no header and
appends the buffered records, one row each, in buffer order. -/
theorem C7_header_once (data c : List Record) (p : String) (fs fsx : FS)
    (hdr : List String) (header2 : Option (List String))
    (hnew : fs p = none) (hold : fsx p = some c) :
    _save_to_file (some hdr) data p fs p = some (List.map Entry.str hdr :: data) ∧
    _save_to_file header2 data p fsx p = some (c ++ data) := by
  rw [save_to_file_eq, save_to_file_eq]
  simp [FS.writeOnly, fileBase, hnew, hold]

/-- Witness for C7: a fresh file gets the header first, an existing file
gets only the appended rows. -/
theorem C7_header_once_witness :
    (emptyFS "out/f.csv" = none ∧
      FS.writeOnly emptyFS "out/f.csv" [[Entry.num 7]] "out/f.csv" = some [[Entry.num 7]]) ∧
    (_save_to_file (some ["ch1", "ch2"]) [[Entry.num 10]] "out/f.csv" emptyFS "out/f.csv" =
      some (List.map Entry.str ["ch1", "ch2"] :: [[Entry.num 10]]) ∧
    _save_to_file (some ["ch1", "ch2"]) [[Entry.num 10]] "out/f.csv"
        (FS.writeOnly emptyFS "out/f.csv" [[Entry.num 7]]) "out/f.csv" =
      some ([[Entry.num 7]] ++ [[Entry.num 10]])) :=
  ⟨⟨rfl, by simp [FS.writeOnly]⟩,
    C7_header_once [[Entry.num 10]] [[Entry.num 7]] "out/f.csv" emptyFS
      (FS.writeOnly emptyFS "out/f.csv" [[Entry.num 7]]) ["ch1", "ch2"]
      (some ["ch1", "ch2"]) rfl (by simp [FS.writeOnly])⟩

/-- C8: a null message and a message of unknown kind are both complete
no-ops for the control loop: the state (session identity, trigger
register, stream buffer, termination flag, files) is returned unchanged
and the loop does not break. -/
theorem C8_null_and_unknown_noop (cfg : Config) (s : ControlState) (m : Message)
    (k : String) (hk : m.type = MessageType.OTHER k) :
    process_message cfg s none = (s, false) ∧
    process_message cfg s (some m) = (s, false) := by
  refine ⟨rfl, ?_⟩
  simp [process_message, hk]

/-- Witness for C8 at a concrete unknown-kind message. -/
theorem C8_null_and_unknown_noop_witness :
    (Message.type { type := MessageType.OTHER "SAVE", experiment_id := "1", stimulus_id := "3" } =
      MessageType.OTHER "SAVE") ∧
    (process_message sampleConfigCont sampleState none = (sampleState, false) ∧
    process_message sampleConfigCont sampleState
        (some { type := MessageType.OTHER "SAVE", experiment_id := "1", stimulus_id := "3" }) =
      (sampleState, false)) :=
  ⟨rfl, C8_null_and_unknown_noop sampleConfigCont sampleState
    { type := MessageType.OTHER "SAVE", experiment_id := "1", stimulus_id := "3" } "SAVE" rfl⟩

/-- C10: a TERMINATE processed in CONTINUOUS mode before any START or STOP
still flushes, and the output file name renders the initial experiment id
`None`, giving `\x7boutput_dir\x7d/\x7bdevice_name\x7d-None.csv`; the loop breaks. -/
theorem C10_terminate_before_start (cfg : Config) (s : ControlState) (m : Message)
    (hmode : cfg.saving_mode = SavingModeEnum.CONTINIOUS_SAVING_MODE)
    (htype : m.type = MessageType.TERMINATE)
    (hexp : s.experiment_id = none) :
    (process_message cfg s (some m)).1.fs =
      FS.writeOnly s.fs (cfg.output_path ++ "/" ++ cfg.name ++ "-None.csv")
        (fileBase (s.fs (cfg.output_path ++ "/" ++ cfg.name ++ "-None.csv")) cfg.header
          ++ s.stream_data) ∧
    (process_message cfg s (some m)).2 = true := by
  have hname := continuousFileName_none cfg
  simp [process_message, htype, hmode, hexp, save_to_file_eq, hname]

/-- Witness for C10 at a concrete CONTINUOUS configuration with the
experiment id still unset. -/
theorem C10_terminate_before_start_witness :
    sampleConfigCont.saving_mode = SavingModeEnum.CONTINIOUS_SAVING_MODE ∧
    sampleTerminate.type = MessageType.TERMINATE ∧
    sampleState.experiment_id = none ∧
    ((process_message sampleConfigCont sampleState (some sampleTerminate)).1.fs =
      FS.writeOnly sampleState.fs
        (sampleConfigCont.output_path ++ "/" ++ sampleConfigCont.name ++ "-None.csv")
        (fileBase (sampleState.fs
            (sampleConfigCont.output_path ++ "/" ++ sampleConfigCont.name ++ "-None.csv"))
          sampleConfigCont.header ++ sampleState.stream_data) ∧
    (process_message sampleConfigCont sampleState (some sampleTerminate)).2 = true) :=
  ⟨rfl, rfl, rfl,
    C10_terminate_before_start sampleConfigCont sampleState sampleTerminate rfl rfl rfl⟩

/-- Once the control loop has exited and the termination flag is set,
every further event (message or pull) leaves the session unchanged. -/
theorem session_step_stopped (cfg : Config) (ss : SessionState)
    (hst : ss.stopped = true) (ht : ss.ctrl.terminate = true) (e : Event) :
    session_step cfg ss e = ss := by
  cases e with
  | msg m =>
      unfold session_step
      rw [hst]
      simp
  | pull block =>
      unfold session_step
      rw [ht]
      simp

/-- In CONTINUOUS mode, a run over events containing no TERMINATE message
never changes the file system. -/
theorem run_session_fs_frame (cfg : Config)
    (hmode : cfg.saving_mode = SavingModeEnum.CONTINIOUS_SAVING_MODE) :
    ∀ (es : List Event) (ss : SessionState),
      (∀ e ∈ es, isTerminateEvent e = false) →
      (run_session cfg ss es).ctrl.fs = ss.ctrl.fs := by
  intro es
  induction es with
  | nil => intro ss _; rfl
  | cons e es ih =>
      intro ss h
      show (run_session cfg (session_step cfg ss e) es).ctrl.fs = ss.ctrl.fs
      rw [ih _ (fun e2 he2 => h e2 (List.mem_cons_of_mem _ he2))]
      exact session_step_fs_frame cfg ss e hmode (h e (List.mem_cons_self _ _))

/-- In CONTINUOUS mode, over any run of events the stream buffer only ever
grows: the starting buffer stays a prefix, so every record ever appended
is still there, in arrival order. -/
theorem run_session_buffer_grows (cfg : Config)
    (hmode : cfg.saving_mode = SavingModeEnum.CONTINIOUS_SAVING_MODE) :
    ∀ (es : List Event) (ss : SessionState),
      ss.ctrl.stream_data <+: (run_session cfg ss es).ctrl.stream_data := by
  intro es
  induction es with
  | nil => intro ss; exact List.prefix_refl _
  | cons e es ih =>
      intro ss
      exact (session_step_buffer_grows cfg ss e hmode).trans (ih _)

/-- C2: in CONTINUOUS saving mode, a session writes no file except when a
TERMINATE message is processed; processing TERMINATE writes exactly one
file, named `\x7boutput_dir\x7d/\x7bdevice_name\x7d-\x7bexperiment_id\x7d.csv` with the final
experiment id seen, containing the whole session buffer in order (the
buffer only ever grows before that); afterwards the control loop consumes
nothing further, the termination flag is set, and the hardware stream is
signalled to stop. -/
theorem C2_continuous_session (cfg : Config) (ss : SessionState) (m : Message)
    (hmode : cfg.saving_mode = SavingModeEnum.CONTINIOUS_SAVING_MODE)
    (hrun : ss.stopped = false)
    (hterm : m.type = MessageType.TERMINATE) :
    (∀ es : List Event, (∀ e ∈ es, isTerminateEvent e = false) →
        (run_session cfg ss es).ctrl.fs = ss.ctrl.fs) ∧
    (∀ es : List Event,
        ss.ctrl.stream_data <+: (run_session cfg ss es).ctrl.stream_data) ∧
    (session_step cfg ss (Event.msg (some m))).ctrl.fs =
      FS.writeOnly ss.ctrl.fs (continuousFileName cfg ss.ctrl.experiment_id)
        (fileBase (ss.ctrl.fs (continuousFileName cfg ss.ctrl.experiment_id)) cfg.header
          ++ ss.ctrl.stream_data) ∧
    (session_step cfg ss (Event.msg (some m))).stopped = true ∧
    (session_step cfg ss (Event.msg (some m))).ctrl.terminate = true ∧
    (session_step cfg ss (Event.msg (some m))).board_streaming = false ∧
    (∀ e : Event, session_step cfg (session_step cfg ss (Event.msg (some m))) e =
        session_step cfg ss (Event.msg (some m))) := by
  have hstep : session_step cfg ss (Event.msg (some m)) =
      { ctrl := (process_message cfg ss.ctrl (some m)).1, stopped := true,
        board_streaming := false } := by
    unfold session_step
    rw [hrun]
    simp [process_message, hterm, hmode]
  have hps : (process_message cfg ss.ctrl (some m)).1 =
      { ss.ctrl with
          terminate := true,
          fs := _save_to_file cfg.header ss.ctrl.stream_data
            (continuousFileName cfg ss.ctrl.experiment_id) ss.ctrl.fs } := by
    simp [process_message, hterm, hmode]
  refine ⟨fun es h => run_session_fs_frame cfg hmode es ss h, ?_, ?_, ?_, ?_, ?_, ?_⟩
  · intro es; exact run_session_buffer_grows cfg hmode es ss
  · rw [hstep, hps]
    exact save_to_file_eq cfg.header ss.ctrl.stream_data
      (continuousFileName cfg ss.ctrl.experiment_id) ss.ctrl.fs
  · rw [hstep]
  · rw [hstep, hps]
  · rw [hstep]
  · intro e
    refine session_step_stopped cfg _ ?_ ?_ e
    · rw [hstep]
    · rw [hstep, hps]

/-- Witness for C2 at a concrete CONTINUOUS configuration, running session
state and TERMINATE message. -/
theorem C2_continuous_session_witness :
    sampleConfigCont.saving_mode = SavingModeEnum.CONTINIOUS_SAVING_MODE ∧
    sampleSession.stopped = false ∧
    sampleTerminate.type = MessageType.TERMINATE ∧
    ((∀ es : List Event, (∀ e ∈ es, isTerminateEvent e = false) →
        (run_session sampleConfigCont sampleSession es).ctrl.fs = sampleSession.ctrl.fs) ∧
    (∀ es : List Event,
        sampleSession.ctrl.stream_data <+:
          (run_session sampleConfigCont sampleSession es).ctrl.stream_data) ∧
    (session_step sampleConfigCont sampleSession (Event.msg (some sampleTerminate))).ctrl.fs =
      FS.writeOnly sampleSession.ctrl.fs
        (continuousFileName sampleConfigCont sampleSession.ctrl.experiment_id)
        (fileBase (sampleSession.ctrl.fs
            (continuousFileName sampleConfigCont sampleSession.ctrl.experiment_id))
          sampleConfigCont.header ++ sampleSession.ctrl.stream_data) ∧
    (session_step sampleConfigCont sampleSession (Event.msg (some sampleTerminate))).stopped =
      true ∧
    (session_step sampleConfigCont sampleSession
        (Event.msg (some sampleTerminate))).ctrl.terminate = true ∧
    (session_step sampleConfigCont sampleSession
        (Event.msg (some sampleTerminate))).board_streaming = false ∧
    (∀ e : Event, session_step sampleConfigCont
        (session_step sampleConfigCont sampleSession (Event.msg (some sampleTerminate))) e =
      session_step sampleConfigCont sampleSession (Event.msg (some sampleTerminate)))) :=
  ⟨rfl, rfl, rfl,
    C2_continuous_session sampleConfigCont sampleSession sampleTerminate rfl rfl rfl⟩

/-- A sample control state with a pending trigger tag. -/
def sampleStateTrig : ControlState :=
  { stream_data := [[Entry.num 10, Entry.num 20]], experiment_id := some "1",
    trigger := some "START-1-03", terminate := false, fs := emptyFS }

/-- C3: a pending Trigger Tag is the string
`\x7bkind\x7d-\x7bexperiment_id\x7d-\x7bstimulus_id zero-padded to 2 digits\x7d`; when the
worker observes it on a non-empty pull it removes the most recently
appended record, appends the tag as one extra trailing field, re-appends
it, and clears the register; every other record appended by the pull
carries no string field at all. -/
theorem C3_trigger_tag (cfg : Config) (s s2 : ControlState) (m : Message) (t : String)
    (block : List (List Int))
    (hstart : m.type = MessageType.START)
    (htrig : s2.trigger = some t)
    (hblock : block ≠ []) :
    (process_message cfg s (some m)).1.trigger =
      some (MessageType.kindString m.type ++ "-" ++ m.experiment_id ++ "-" ++
        zfill m.stimulus_id 2) ∧
    (stream_step s2 block).stream_data =
      (s2.stream_data ++ block.map (fun row => List.map Entry.num row)).dropLast ++
        [(s2.stream_data ++ block.map (fun row => List.map Entry.num row)).getLast?.getD []
          ++ [Entry.str t]] ∧
    (stream_step s2 block).trigger = none ∧
    (∀ r ∈ block.map (fun row => List.map Entry.num row), ∀ u : String, Entry.str u ∉ r) := by
  have hb : ¬ block.length = 0 := by
    simpa [List.length_eq_zero] using hblock
  refine ⟨?_, ?_, ?_, ?_⟩
  · simp [process_message, hstart, set_trigger]
  · unfold stream_step
    rw [if_neg hb]
    simp [htrig]
  · unfold stream_step
    rw [if_neg hb]
  · intro r hr u hu
    rcases List.mem_map.mp hr with ⟨row, _, hrow⟩
    rcases List.mem_map.mp (hrow ▸ hu) with ⟨v, _, hv⟩
    exact Entry.noConfusion hv

/-- Witness for C3 at a concrete START message, pending tag and two-sample
pull. -/
theorem C3_trigger_tag_witness :
    sampleStart.type = MessageType.START ∧
    sampleStateTrig.trigger = some "START-1-03" ∧
    ([[30], [40]] : List (List Int)) ≠ [] ∧
    ((process_message sampleConfigCont sampleState (some sampleStart)).1.trigger =
      some (MessageType.kindString sampleStart.type ++ "-" ++ sampleStart.experiment_id ++
        "-" ++ zfill sampleStart.stimulus_id 2) ∧
    (stream_step sampleStateTrig [[30], [40]]).stream_data =
      (sampleStateTrig.stream_data ++
          ([[30], [40]] : List (List Int)).map (fun row => List.map Entry.num row)).dropLast ++
        [(sampleStateTrig.stream_data ++
            ([[30], [40]] : List (List Int)).map
              (fun row => List.map Entry.num row)).getLast?.getD []
          ++ [Entry.str "START-1-03"]] ∧
    (stream_step sampleStateTrig [[30], [40]]).trigger = none ∧
    (∀ r ∈ ([[30], [40]] : List (List Int)).map (fun row => List.map Entry.num row),
      ∀ u : String, Entry.str u ∉ r)) :=
  ⟨rfl, rfl, by decide,
    C3_trigger_tag sampleConfigCont sampleState sampleStateTrig sampleStart "START-1-03"
      [[30], [40]] rfl rfl (by decide)⟩

/-- C4: a pull that yields zero samples is a complete no-op for the worker
iteration — buffer, trigger register and everything else are unchanged —
and a pending tag is only consumed (the register cleared) by a non-empty
pull. -/
theorem C4_empty_pull_noop (s s2 : ControlState) (block block2 : List (List Int))
    (hb : block.length = 0) (hb2 : block2 ≠ []) :
    stream_step s block = s ∧ (stream_step s2 block2).trigger = none := by
  constructor
  · unfold stream_step
    rw [if_pos hb]
  · unfold stream_step
    rw [if_neg (by simpa [List.length_eq_zero] using hb2)]

/-- Witness for C4: an empty pull on a state with a pending tag changes
nothing; a following one-sample pull clears the tag. -/
theorem C4_empty_pull_noop_witness :
    ([] : List (List Int)).length = 0 ∧
    ([[30]] : List (List Int)) ≠ [] ∧
    (stream_step sampleStateTrig [] = sampleStateTrig ∧
      (stream_step sampleStateTrig [[30]]).trigger = none) :=
  ⟨rfl, by decide, C4_empty_pull_noop sampleStateTrig sampleStateTrig [] [[30]] rfl (by decide)⟩

/-- C5 as stated is false on the code: with `sampling_rate = 0` the Python
slice `[-1 * 3 * 0:]` is `[0:]`, the whole buffer, so on a one-record
buffer the monitoring query returns 1 record, exceeding the claimed bound
of `3 * sampling_rate = 0`. -/
theorem C5_counterexample :
    (_get_monitoring_data { sampleConfigCont with sampling_rate := 0 } sampleState).length = 1 ∧
    ¬ ((_get_monitoring_data { sampleConfigCont with sampling_rate := 0 } sampleState).length ≤
        3 * ({ sampleConfigCont with sampling_rate := 0 } : Config).sampling_rate) := by
  constructor
  · rfl
  · decide

/-- C5 amended: for every buffer state and every positive configured
sampling rate, the monitoring query returns a suffix (the most recent
records) of the buffer, of length exactly
`min (buffer_length) (3 * sampling_rate)` — hence never more than
`3 * sampling_rate` and never fewer than that minimum. -/
theorem C5_monitoring_bounds (cfg : Config) (s : ControlState)
    (hr : 1 ≤ cfg.sampling_rate) :
    (_get_monitoring_data cfg s).length ≤ 3 * cfg.sampling_rate ∧
    (_get_monitoring_data cfg s).length =
      min s.stream_data.length (3 * cfg.sampling_rate) ∧
    _get_monitoring_data cfg s <:+ s.stream_data := by
  unfold _get_monitoring_data pySliceFrom
  have hneg : (-1 * 3 * (cfg.sampling_rate : Int)) < 0 := by
    have h1 : (1 : Int) ≤ (cfg.sampling_rate : Int) := by exact_mod_cast hr
    nlinarith
  rw [if_pos hneg]
  have htn : (-(-1 * 3 * (cfg.sampling_rate : Int))).toNat = 3 * cfg.sampling_rate := by
    omega
  rw [htn]
  refine ⟨?_, ?_, List.drop_suffix _ _⟩
  · rw [List.length_drop]
    omega
  · rw [List.length_drop]
    omega

/-- Witness for C5 (amended) at sampling rate 2 and a one-record buffer. -/
theorem C5_monitoring_bounds_witness :
    1 ≤ sampleConfigCont.sampling_rate ∧
    ((_get_monitoring_data sampleConfigCont sampleState).length ≤
        3 * sampleConfigCont.sampling_rate ∧
    (_get_monitoring_data sampleConfigCont sampleState).length =
      min sampleState.stream_data.length (3 * sampleConfigCont.sampling_rate) ∧
    _get_monitoring_data sampleConfigCont sampleState <:+ sampleState.stream_data) :=
  ⟨by decide, C5_monitoring_bounds sampleConfigCont sampleState (by decide)⟩

/-- C9: the writer never modifies the stream buffer — in CONTINUOUS mode
no control message changes the buffer at all (in particular the TERMINATE
flush leaves it intact) and the buffer grows monotonically across every
session step; the only clearing is done by the control loop itself, on a
STOP in SEPARATED mode, after the flush. -/
theorem C9_writer_buffer_frame (cfg cfgb : Config) (s sb : ControlState)
    (msg : Option Message)
    (hmode : cfg.saving_mode = SavingModeEnum.CONTINIOUS_SAVING_MODE) :
    (process_message cfg s msg).1.stream_data = s.stream_data ∧
    ((process_message cfgb sb msg).1.stream_data = sb.stream_data ∨
      ((process_message cfgb sb msg).1.stream_data = [] ∧
        cfgb.saving_mode = SavingModeEnum.SEPARATED_SAVING_MODE ∧
        ∃ mm, msg = some mm ∧ mm.type = MessageType.STOP)) ∧
    (∀ (ss : SessionState) (e : Event),
      ss.ctrl.stream_data <+: (session_step cfg ss e).ctrl.stream_data) := by
  refine ⟨process_message_continuous_buffer cfg s msg hmode, ?_,
    fun ss e => session_step_buffer_grows cfg ss e hmode⟩
  cases msg with
  | none => exact Or.inl rfl
  | some mm =>
      cases htype : mm.type with
      | STOP =>
          by_cases hmb : cfgb.saving_mode = SavingModeEnum.SEPARATED_SAVING_MODE
          · refine Or.inr ⟨?_, hmb, mm, rfl, htype⟩
            simp [process_message, htype, hmb]
          · refine Or.inl ?_
            simp [process_message, htype, hmb, set_trigger]
      | START =>
          refine Or.inl ?_
          simp [process_message, htype, set_trigger]
      | TERMINATE =>
          refine Or.inl ?_
          by_cases hmb : cfgb.saving_mode = SavingModeEnum.CONTINIOUS_SAVING_MODE <;>
            simp [process_message, htype, hmb]
      | OTHER k =>
          refine Or.inl ?_
          simp [process_message, htype]

/-- Witness for C9: CONTINUOUS mode never clears on STOP; SEPARATED mode
clears exactly there. -/
theorem C9_writer_buffer_frame_witness :
    sampleConfigCont.saving_mode = SavingModeEnum.CONTINIOUS_SAVING_MODE ∧
    ((process_message sampleConfigCont sampleState (some sampleStop)).1.stream_data =
        sampleState.stream_data ∧
    ((process_message sampleConfigSep sampleState (some sampleStop)).1.stream_data =
        sampleState.stream_data ∨
      ((process_message sampleConfigSep sampleState (some sampleStop)).1.stream_data = [] ∧
        sampleConfigSep.saving_mode = SavingModeEnum.SEPARATED_SAVING_MODE ∧
        ∃ mm, (some sampleStop : Option Message) = some mm ∧
          mm.type = MessageType.STOP)) ∧
    (∀ (ss : SessionState) (e : Event),
      ss.ctrl.stream_data <+:
        (session_step sampleConfigCont ss e).ctrl.stream_data)) :=
  ⟨rfl, C9_writer_buffer_frame sampleConfigCont sampleConfigSep sampleState sampleState
    (some sampleStop) rfl⟩

end OctopusSensing
